import Mathlib

/-!
# OMR answer-evaluation engine: shallow embedding and verification

This file embeds the answer evaluation / scoring engine of the OMR
repository (the Netlify function `omr-processing`, functions
`getSubjectForQuestion` and `evaluateResponses`, together with the
hard-coded `answerKeys` table) into Lean 4 and proves the specified
properties about it.

Modelling choices:
* JS strings are Lean `String`s; `String.prototype.trim` is modelled by
  `jsTrim` (drop leading/trailing whitespace characters), and
  `String.prototype.toLowerCase` by `jsToLowerCase` (character-wise ASCII
  lowercasing; the engine only compares single-letter a–d answers, where
  the two coincide).
* JS numbers used by the engine are counters (`Nat`) and the two
  `percentage` fields.  The percentage computations are modelled over `ℚ`;
  for every value the claims mention (`100.0`) the IEEE-double computation
  performed by JS is exact, so `ℚ` is faithful there.
* `responses[i] || ""` is `List.getD responses i ""`: an out-of-range read
  yields `undefined`, and both `undefined` and `""` are falsy, so the
  expression collapses to "the entry, or "" when missing/empty" — which is
  exactly `getD` because a non-empty JS string is truthy.
* The `specialCases` object keyed by the decimal string of the question
  number is modelled as a function `Nat → Option (List String)` (the
  `toString` keying is injective on question numbers).
* The insertion-ordered `subjectScores` object is an association list in
  insertion order `["Python", "EDA", "SQL", "PowerBI", "Statistics"]`.
-/

/-- Characters removed by JS `String.prototype.trim` (ECMA-262 WhiteSpace
and LineTerminator code points). -/
def jsWhitespace (c : Char) : Bool :=
  c = ' ' || c = '\t' || c = '\n' || c = '\r' || c = '\x0b' || c = '\x0c' ||
  c = '\u00A0' || c = '\uFEFF' || c = '\u1680' ||
  c = '\u2000' || c = '\u2001' || c = '\u2002' || c = '\u2003' ||
  c = '\u2004' || c = '\u2005' || c = '\u2006' || c = '\u2007' ||
  c = '\u2008' || c = '\u2009' || c = '\u200A' ||
  c = '\u202F' || c = '\u205F' || c = '\u3000' ||
  c = '\u2028' || c = '\u2029'

/-- JS `s.trim()`: strip leading and trailing whitespace. -/
def jsTrim (s : String) : String :=
  ⟨((s.data.dropWhile jsWhitespace).reverse.dropWhile jsWhitespace).reverse⟩

/-- JS `s.toLowerCase()`, restricted to the ASCII mapping (the engine only
compares the letters a–d, for which this is exact). -/
def jsToLowerCase (s : String) : String :=
  ⟨s.data.map Char.toLower⟩

/-- One exam variant of the hard-coded `answerKeys` table: the flat
100-entry answer list plus the sparse special-case table. -/
structure AnswerKeyData where
  rawAnswers : List String
  specialCases : Nat → Option (List String)

/-- `answerKeys.setA.rawAnswers` from the source (100 entries). -/
def setARawAnswers : List String :=
  [ -- Python (1-20)
   "b", "a", "c", "d", "b", "a", "c", "b", "d", "a",
   "c", "b", "d", "a", "c", "a", "d", "b", "c", "a",
   -- EDA (21-40)
   "a", "c", "b", "d", "a", "c", "b", "a", "d", "c",
   "b", "a", "d", "c", "b", "a", "c", "d", "b", "a",
   -- SQL (41-60)
   "c", "a", "b", "d", "c", "a", "b", "c", "d", "a",
   "b", "c", "a", "d", "b", "c", "a", "d", "b", "a",
   -- PowerBI (61-80)
   "d", "b", "a", "c", "d", "b", "a", "d", "c", "b",
   "a", "d", "c", "b", "a", "d", "c", "b", "a", "d",
   -- Statistics (81-100)
   "a", "d", "c", "b", "a", "d", "c", "a", "b", "d",
   "c", "a", "b", "d", "c", "a", "b", "d", "c", "a"]

/-- `answerKeys.setB.rawAnswers` from the source (100 entries). -/
def setBRawAnswers : List String :=
  [ -- Python (1-20)
   "c", "b", "d", "a", "c", "b", "d", "c", "a", "b",
   "d", "c", "a", "b", "d", "b", "a", "c", "d", "b",
   -- EDA (21-40)
   "b", "d", "c", "a", "b", "d", "c", "b", "a", "d",
   "c", "b", "a", "d", "c", "b", "d", "a", "c", "b",
   -- SQL (41-60)
   "d", "b", "c", "a", "d", "b", "c", "d", "a", "b",
   "c", "d", "b", "a", "c", "d", "b", "a", "c", "b",
   -- PowerBI (61-80)
   "a", "c", "b", "d", "a", "c", "b", "a", "d", "c",
   "b", "a", "d", "c", "b", "a", "d", "c", "b", "a",
   -- Statistics (81-100)
   "b", "a", "d", "c", "b", "a", "d", "b", "c", "a",
   "d", "b", "c", "a", "d", "b", "c", "a", "d", "b"]

/-- The `specialCases` table shared (textually) by both exam sets:
question 16 accepts any of a–d, question 59 accepts a or b. -/
def sharedSpecialCases : Nat → Option (List String) := fun q =>
  if q = 16 then some ["a", "b", "c", "d"]
  else if q = 59 then some ["a", "b"]
  else none

/-- The two-set `answerKeys` object from the source. -/
structure AnswerKeys where
  setA : AnswerKeyData
  setB : AnswerKeyData

/-- The hard-coded `answerKeys` constant. -/
def answerKeys : AnswerKeys :=
  { setA := { rawAnswers := setARawAnswers, specialCases := sharedSpecialCases }
    setB := { rawAnswers := setBRawAnswers, specialCases := sharedSpecialCases } }

/-- `answerKeys[examSet] || answerKeys.setA`: property lookup on the
two-key object with fallback to set A. -/
def getAnswerKey (examSet : String) : AnswerKeyData :=
  if examSet == "setA" then answerKeys.setA
  else if examSet == "setB" then answerKeys.setB
  else answerKeys.setA

/-- `getSubjectForQuestion` from the source: the hard-coded subject map of
five contiguous 20-question segments, with sentinel `"Unknown"` outside. -/
def getSubjectForQuestion (questionNum : Nat) : String :=
  if 1 ≤ questionNum ∧ questionNum ≤ 20 then "Python"
  else if 21 ≤ questionNum ∧ questionNum ≤ 40 then "EDA"
  else if 41 ≤ questionNum ∧ questionNum ≤ 60 then "SQL"
  else if 61 ≤ questionNum ∧ questionNum ≤ 80 then "PowerBI"
  else if 81 ≤ questionNum ∧ questionNum ≤ 100 then "Statistics"
  else "Unknown"

/-- The `subjects` array used to initialise `subjectScores`. -/
def subjects : List String := ["Python", "EDA", "SQL", "PowerBI", "Statistics"]

/-- One entry of a subject's `questions` array. -/
structure SubjectQuestion where
  questionNumber : Nat
  isCorrect : Bool
  status : String
deriving DecidableEq, Repr

/-- One subject's entry in `subjectScores`. -/
structure SubjectScore where
  correct : Nat
  total : Nat
  percentage : ℚ
  questions : List SubjectQuestion
deriving DecidableEq, Repr

/-- One record of `detailedResults`. -/
structure QuestionDetail where
  questionNumber : Nat
  subject : String
  studentAnswer : String
  correctAnswer : String
  isCorrect : Bool
  status : String
deriving DecidableEq, Repr

/-- The `summary` block of counters. -/
structure Summary where
  correct : Nat
  incorrect : Nat
  unanswered : Nat
deriving DecidableEq, Repr

/-- The full `results` object built by `evaluateResponses`.  The
insertion-ordered `subjectScores` object is an association list. -/
structure EvaluationResult where
  totalQuestions : Nat
  totalScore : Nat
  percentage : ℚ
  subjectScores : List (String × SubjectScore)
  detailedResults : List QuestionDetail
  summary : Summary
deriving DecidableEq, Repr

/-- The initial `subjectScores` object (five subjects, 20 questions each,
in insertion order). -/
def initSubjectScores : List (String × SubjectScore) :=
  subjects.map fun s => (s, { correct := 0, total := 20, percentage := 0, questions := [] })

/-- `results.subjectScores[subject].correct++`. -/
def bumpSubjectCorrect (m : List (String × SubjectScore)) (subject : String) :
    List (String × SubjectScore) :=
  m.map fun p => if p.1 = subject then (p.1, { p.2 with correct := p.2.correct + 1 }) else p

/-- `results.subjectScores[subject].questions.push(q)`. -/
def pushSubjectQuestion (m : List (String × SubjectScore)) (subject : String)
    (q : SubjectQuestion) : List (String × SubjectScore) :=
  m.map fun p => if p.1 = subject then (p.1, { p.2 with questions := p.2.questions ++ [q] }) else p

/-- The `results` value before the question loop runs. -/
def initResults : EvaluationResult :=
  { totalQuestions := 100
    totalScore := 0
    percentage := 0
    subjectScores := initSubjectScores
    detailedResults := []
    summary := { correct := 0, incorrect := 0, unanswered := 0 } }

/-- One iteration of the question loop of `evaluateResponses` (loop index
`i`, question number `i + 1`), threading the `results` accumulator. -/
def evalStep (correctAnswers : List String) (specialCases : Nat → Option (List String))
    (responses : List String) (acc : EvaluationResult) (i : Nat) : EvaluationResult :=
  let questionNum := i + 1
  let subject := getSubjectForQuestion questionNum
  let studentAnswer := responses.getD i ""
  let correctAnswer := correctAnswers.getD i ""
  if studentAnswer == "" || jsTrim studentAnswer == "" then
    { acc with
      summary := { acc.summary with unanswered := acc.summary.unanswered + 1 }
      detailedResults := acc.detailedResults ++
        [{ questionNumber := questionNum, subject := subject,
           studentAnswer := studentAnswer, correctAnswer := correctAnswer,
           isCorrect := false, status := "unanswered" }]
      subjectScores := pushSubjectQuestion acc.subjectScores subject
        { questionNumber := questionNum, isCorrect := false, status := "unanswered" } }
  else
    let isCorrect : Bool :=
      match specialCases questionNum with
      | some acceptedAnswers => acceptedAnswers.contains (jsToLowerCase studentAnswer)
      | none => jsToLowerCase studentAnswer == jsToLowerCase correctAnswer
    if isCorrect then
      { acc with
        totalScore := acc.totalScore + 1
        summary := { acc.summary with correct := acc.summary.correct + 1 }
        detailedResults := acc.detailedResults ++
          [{ questionNumber := questionNum, subject := subject,
             studentAnswer := studentAnswer, correctAnswer := correctAnswer,
             isCorrect := true, status := "correct" }]
        subjectScores := pushSubjectQuestion (bumpSubjectCorrect acc.subjectScores subject)
          subject { questionNumber := questionNum, isCorrect := true, status := "correct" } }
    else
      { acc with
        summary := { acc.summary with incorrect := acc.summary.incorrect + 1 }
        detailedResults := acc.detailedResults ++
          [{ questionNumber := questionNum, subject := subject,
             studentAnswer := studentAnswer, correctAnswer := correctAnswer,
             isCorrect := false, status := "incorrect" }]
        subjectScores := pushSubjectQuestion acc.subjectScores subject
          { questionNumber := questionNum, isCorrect := false, status := "incorrect" } }

/-- `evaluateResponses(responses, examSet)` from the source: run the
100-question loop, then fill in the overall and per-subject percentages. -/
def evaluateResponses (responses : List String) (examSet : String) : EvaluationResult :=
  let answerKey := getAnswerKey examSet
  let correctAnswers := answerKey.rawAnswers
  let specialCases := answerKey.specialCases
  let looped := (List.range 100).foldl (evalStep correctAnswers specialCases responses) initResults
  { looped with
    percentage := (looped.totalScore : ℚ) / 100 * 100
    subjectScores := looped.subjectScores.map fun p =>
      (p.1, { p.2 with percentage := (p.2.correct : ℚ) / (p.2.total : ℚ) * 100 }) }

/-! ## Closed forms for the loop body -/

/-- The blank-answer test of the loop body:
`!studentAnswer || studentAnswer.trim() === ""`. -/
def isBlankAnswer (s : String) : Bool :=
  s == "" || jsTrim s == ""

/-- The correctness test the loop body applies to a non-blank answer at
loop index `i` (special-case membership, else key comparison). -/
def rawIsCorrect (correctAnswers : List String) (specialCases : Nat → Option (List String))
    (responses : List String) (i : Nat) : Bool :=
  match specialCases (i + 1) with
  | some acceptedAnswers => acceptedAnswers.contains (jsToLowerCase (responses.getD i ""))
  | none => jsToLowerCase (responses.getD i "") == jsToLowerCase (correctAnswers.getD i "")

/-- The status string the loop body assigns at loop index `i`. -/
def questionStatus (correctAnswers : List String) (specialCases : Nat → Option (List String))
    (responses : List String) (i : Nat) : String :=
  if isBlankAnswer (responses.getD i "") then "unanswered"
  else if rawIsCorrect correctAnswers specialCases responses i then "correct" else "incorrect"

/-- The `detailedResults` record the loop body appends at loop index `i`. -/
def questionRecord (correctAnswers : List String) (specialCases : Nat → Option (List String))
    (responses : List String) (i : Nat) : QuestionDetail :=
  { questionNumber := i + 1
    subject := getSubjectForQuestion (i + 1)
    studentAnswer := responses.getD i ""
    correctAnswer := correctAnswers.getD i ""
    isCorrect := questionStatus correctAnswers specialCases responses i == "correct"
    status := questionStatus correctAnswers specialCases responses i }

/-- The `questions` entry the loop body pushes onto the owning subject at
loop index `i`. -/
def subjectRecord (correctAnswers : List String) (specialCases : Nat → Option (List String))
    (responses : List String) (i : Nat) : SubjectQuestion :=
  { questionNumber := i + 1
    isCorrect := questionStatus correctAnswers specialCases responses i == "correct"
    status := questionStatus correctAnswers specialCases responses i }

lemma questionStatus_trichotomy (ca : List String) (sc : Nat → Option (List String))
    (r : List String) (i : Nat) :
    questionStatus ca sc r i = "correct" ∨ questionStatus ca sc r i = "incorrect" ∨
      questionStatus ca sc r i = "unanswered" := by
  unfold questionStatus
  split
  · exact Or.inr (Or.inr rfl)
  · split
    · exact Or.inl rfl
    · exact Or.inr (Or.inl rfl)

lemma questionStatus_of_blank (ca : List String) (sc : Nat → Option (List String))
    (r : List String) (i : Nat) (hb : isBlankAnswer (r.getD i "") = true) :
    questionStatus ca sc r i = "unanswered" := by
  unfold questionStatus
  rw [hb]
  simp

lemma questionStatus_of_correct (ca : List String) (sc : Nat → Option (List String))
    (r : List String) (i : Nat) (hb : isBlankAnswer (r.getD i "") = false)
    (hc : rawIsCorrect ca sc r i = true) :
    questionStatus ca sc r i = "correct" := by
  unfold questionStatus
  rw [hb, hc]
  simp

lemma questionStatus_of_incorrect (ca : List String) (sc : Nat → Option (List String))
    (r : List String) (i : Nat) (hb : isBlankAnswer (r.getD i "") = false)
    (hc : rawIsCorrect ca sc r i = false) :
    questionStatus ca sc r i = "incorrect" := by
  unfold questionStatus
  rw [hb, hc]
  simp

/-- `evalStep` re-expressed through the named tests `isBlankAnswer` and
`rawIsCorrect` (definitional). -/
lemma evalStep_branches (ca : List String) (sc : Nat → Option (List String))
    (r : List String) (acc : EvaluationResult) (i : Nat) :
    evalStep ca sc r acc i =
      (if isBlankAnswer (r.getD i "") then
        { acc with
          summary := { acc.summary with unanswered := acc.summary.unanswered + 1 }
          detailedResults := acc.detailedResults ++
            [{ questionNumber := i + 1, subject := getSubjectForQuestion (i + 1),
               studentAnswer := r.getD i "", correctAnswer := ca.getD i "",
               isCorrect := false, status := "unanswered" }]
          subjectScores := pushSubjectQuestion acc.subjectScores (getSubjectForQuestion (i + 1))
            { questionNumber := i + 1, isCorrect := false, status := "unanswered" } }
      else if rawIsCorrect ca sc r i then
        { acc with
          totalScore := acc.totalScore + 1
          summary := { acc.summary with correct := acc.summary.correct + 1 }
          detailedResults := acc.detailedResults ++
            [{ questionNumber := i + 1, subject := getSubjectForQuestion (i + 1),
               studentAnswer := r.getD i "", correctAnswer := ca.getD i "",
               isCorrect := true, status := "correct" }]
          subjectScores := pushSubjectQuestion
            (bumpSubjectCorrect acc.subjectScores (getSubjectForQuestion (i + 1)))
            (getSubjectForQuestion (i + 1))
            { questionNumber := i + 1, isCorrect := true, status := "correct" } }
      else
        { acc with
          summary := { acc.summary with incorrect := acc.summary.incorrect + 1 }
          detailedResults := acc.detailedResults ++
            [{ questionNumber := i + 1, subject := getSubjectForQuestion (i + 1),
               studentAnswer := r.getD i "", correctAnswer := ca.getD i "",
               isCorrect := false, status := "incorrect" }]
          subjectScores := pushSubjectQuestion acc.subjectScores (getSubjectForQuestion (i + 1))
            { questionNumber := i + 1, isCorrect := false, status := "incorrect" } }) := rfl

/-- Structural description of one loop iteration in terms of
`questionStatus` and `questionRecord`. -/
lemma evalStep_eq (ca : List String) (sc : Nat → Option (List String))
    (r : List String) (acc : EvaluationResult) (i : Nat) :
    evalStep ca sc r acc i =
      { totalQuestions := acc.totalQuestions
        totalScore := acc.totalScore + (if questionStatus ca sc r i = "correct" then 1 else 0)
        percentage := acc.percentage
        subjectScores :=
          pushSubjectQuestion
            (if questionStatus ca sc r i = "correct" then
              bumpSubjectCorrect acc.subjectScores (getSubjectForQuestion (i + 1))
            else acc.subjectScores)
            (getSubjectForQuestion (i + 1)) (subjectRecord ca sc r i)
        detailedResults := acc.detailedResults ++ [questionRecord ca sc r i]
        summary :=
          { correct := acc.summary.correct +
              (if questionStatus ca sc r i = "correct" then 1 else 0)
            incorrect := acc.summary.incorrect +
              (if questionStatus ca sc r i = "incorrect" then 1 else 0)
            unanswered := acc.summary.unanswered +
              (if questionStatus ca sc r i = "unanswered" then 1 else 0) } } := by
  rw [evalStep_branches]
  cases hb : isBlankAnswer (r.getD i "") with
  | true => simp [questionRecord, subjectRecord, questionStatus_of_blank ca sc r i hb]
  | false =>
    cases hc : rawIsCorrect ca sc r i with
    | true => simp [questionRecord, subjectRecord, questionStatus_of_correct ca sc r i hb hc]
    | false => simp [questionRecord, subjectRecord, questionStatus_of_incorrect ca sc r i hb hc]

/-! ## Invariants of the question loop -/

lemma keys_pushSubjectQuestion (m : List (String × SubjectScore)) (s : String)
    (q : SubjectQuestion) :
    (pushSubjectQuestion m s q).map Prod.fst = m.map Prod.fst := by
  unfold pushSubjectQuestion
  induction m with
  | nil => rfl
  | cons p t ih =>
    simp only [List.map_cons, ih, List.cons.injEq, and_true]
    split <;> rfl

lemma keys_bumpSubjectCorrect (m : List (String × SubjectScore)) (s : String) :
    (bumpSubjectCorrect m s).map Prod.fst = m.map Prod.fst := by
  unfold bumpSubjectCorrect
  induction m with
  | nil => rfl
  | cons p t ih =>
    simp only [List.map_cons, ih, List.cons.injEq, and_true]
    split <;> rfl

lemma totals_pushSubjectQuestion (m : List (String × SubjectScore)) (s : String)
    (q : SubjectQuestion) :
    (pushSubjectQuestion m s q).map (fun p => p.2.total) = m.map (fun p => p.2.total) := by
  unfold pushSubjectQuestion
  induction m with
  | nil => rfl
  | cons p t ih =>
    simp only [List.map_cons, ih, List.cons.injEq, and_true]
    split <;> rfl

lemma totals_bumpSubjectCorrect (m : List (String × SubjectScore)) (s : String) :
    (bumpSubjectCorrect m s).map (fun p => p.2.total) = m.map (fun p => p.2.total) := by
  unfold bumpSubjectCorrect
  induction m with
  | nil => rfl
  | cons p t ih =>
    simp only [List.map_cons, ih, List.cons.injEq, and_true]
    split <;> rfl

lemma corrects_pushSubjectQuestion (m : List (String × SubjectScore)) (s : String)
    (q : SubjectQuestion) :
    (pushSubjectQuestion m s q).map (fun p => p.2.correct) = m.map (fun p => p.2.correct) := by
  unfold pushSubjectQuestion
  induction m with
  | nil => rfl
  | cons p t ih =>
    simp only [List.map_cons, ih, List.cons.injEq, and_true]
    split <;> rfl

/-- Bumping a subject's `correct` counter adds to the overall sum exactly
the multiplicity of that subject among the keys. -/
lemma sum_bumpSubjectCorrect (m : List (String × SubjectScore)) (s : String) :
    ((bumpSubjectCorrect m s).map (fun p => p.2.correct)).sum =
      (m.map (fun p => p.2.correct)).sum + (m.map Prod.fst).count s := by
  unfold bumpSubjectCorrect
  induction m with
  | nil => rfl
  | cons p t ih =>
    simp only [List.map_cons, List.sum_cons, ih, List.count_cons]
    by_cases h : p.1 = s
    · simp [h]
      omega
    · simp [h]
      omega

/-- Inside the loop range, the owning subject occurs exactly once among
the five subject keys. -/
lemma count_subjects_getSubjectForQuestion (q : Nat) (h1 : 1 ≤ q) (h2 : q ≤ 100) :
    subjects.count (getSubjectForQuestion q) = 1 := by
  unfold getSubjectForQuestion
  split_ifs with h3 h4 h5 h6 h7
  · decide
  · decide
  · decide
  · decide
  · decide
  · omega

lemma evalStep_keys (ca : List String) (sc : Nat → Option (List String)) (r : List String)
    (acc : EvaluationResult) (i : Nat) :
    (evalStep ca sc r acc i).subjectScores.map Prod.fst = acc.subjectScores.map Prod.fst := by
  rw [evalStep_eq]
  show (pushSubjectQuestion _ _ _).map Prod.fst = _
  rw [keys_pushSubjectQuestion]
  split
  · rw [keys_bumpSubjectCorrect]
  · rfl

lemma evalStep_totals (ca : List String) (sc : Nat → Option (List String)) (r : List String)
    (acc : EvaluationResult) (i : Nat) :
    (evalStep ca sc r acc i).subjectScores.map (fun p => p.2.total) =
      acc.subjectScores.map (fun p => p.2.total) := by
  rw [evalStep_eq]
  show (pushSubjectQuestion _ _ _).map (fun p => p.2.total) = _
  rw [totals_pushSubjectQuestion]
  split
  · rw [totals_bumpSubjectCorrect]
  · rfl

lemma evalStep_sumCorrect (ca : List String) (sc : Nat → Option (List String)) (r : List String)
    (acc : EvaluationResult) (i : Nat) (hi : i < 100)
    (hkeys : acc.subjectScores.map Prod.fst = subjects) :
    ((evalStep ca sc r acc i).subjectScores.map (fun p => p.2.correct)).sum =
      (acc.subjectScores.map (fun p => p.2.correct)).sum +
        (if questionStatus ca sc r i = "correct" then 1 else 0) := by
  rw [evalStep_eq]
  show ((pushSubjectQuestion _ _ _).map (fun p => p.2.correct)).sum = _
  rw [corrects_pushSubjectQuestion]
  split
  · rw [sum_bumpSubjectCorrect, hkeys,
      count_subjects_getSubjectForQuestion (i + 1) (by omega) (by omega)]
  · rfl

/-! ## Closed forms for the whole loop -/

lemma foldl_detailedResults (ca : List String) (sc : Nat → Option (List String))
    (r : List String) (l : List Nat) (acc : EvaluationResult) :
    (l.foldl (evalStep ca sc r) acc).detailedResults =
      acc.detailedResults ++ l.map (questionRecord ca sc r) := by
  induction l generalizing acc with
  | nil => simp
  | cons i t ih =>
    rw [List.foldl_cons, ih, evalStep_eq]
    simp

lemma foldl_totalQuestions (ca : List String) (sc : Nat → Option (List String))
    (r : List String) (l : List Nat) (acc : EvaluationResult) :
    (l.foldl (evalStep ca sc r) acc).totalQuestions = acc.totalQuestions := by
  induction l generalizing acc with
  | nil => rfl
  | cons i t ih =>
    rw [List.foldl_cons, ih, evalStep_eq]

lemma foldl_totalScore (ca : List String) (sc : Nat → Option (List String))
    (r : List String) (l : List Nat) (acc : EvaluationResult) :
    (l.foldl (evalStep ca sc r) acc).totalScore =
      acc.totalScore + l.countP (fun i => questionStatus ca sc r i == "correct") := by
  induction l generalizing acc with
  | nil => simp
  | cons i t ih =>
    rw [List.foldl_cons, ih, evalStep_eq, List.countP_cons]
    simp only []
    by_cases h : questionStatus ca sc r i = "correct" <;> simp [h] <;> omega

lemma foldl_summaryCorrect (ca : List String) (sc : Nat → Option (List String))
    (r : List String) (l : List Nat) (acc : EvaluationResult) :
    (l.foldl (evalStep ca sc r) acc).summary.correct =
      acc.summary.correct + l.countP (fun i => questionStatus ca sc r i == "correct") := by
  induction l generalizing acc with
  | nil => simp
  | cons i t ih =>
    rw [List.foldl_cons, ih, evalStep_eq, List.countP_cons]
    by_cases h : questionStatus ca sc r i = "correct" <;> simp [h] <;> omega

lemma foldl_summaryIncorrect (ca : List String) (sc : Nat → Option (List String))
    (r : List String) (l : List Nat) (acc : EvaluationResult) :
    (l.foldl (evalStep ca sc r) acc).summary.incorrect =
      acc.summary.incorrect + l.countP (fun i => questionStatus ca sc r i == "incorrect") := by
  induction l generalizing acc with
  | nil => simp
  | cons i t ih =>
    rw [List.foldl_cons, ih, evalStep_eq, List.countP_cons]
    by_cases h : questionStatus ca sc r i = "incorrect" <;> simp [h] <;> omega

lemma foldl_summaryUnanswered (ca : List String) (sc : Nat → Option (List String))
    (r : List String) (l : List Nat) (acc : EvaluationResult) :
    (l.foldl (evalStep ca sc r) acc).summary.unanswered =
      acc.summary.unanswered + l.countP (fun i => questionStatus ca sc r i == "unanswered") := by
  induction l generalizing acc with
  | nil => simp
  | cons i t ih =>
    rw [List.foldl_cons, ih, evalStep_eq, List.countP_cons]
    by_cases h : questionStatus ca sc r i = "unanswered" <;> simp [h] <;> omega

lemma foldl_keys (ca : List String) (sc : Nat → Option (List String))
    (r : List String) (l : List Nat) (acc : EvaluationResult) :
    (l.foldl (evalStep ca sc r) acc).subjectScores.map Prod.fst =
      acc.subjectScores.map Prod.fst := by
  induction l generalizing acc with
  | nil => rfl
  | cons i t ih => rw [List.foldl_cons, ih, evalStep_keys]

lemma foldl_totals (ca : List String) (sc : Nat → Option (List String))
    (r : List String) (l : List Nat) (acc : EvaluationResult) :
    (l.foldl (evalStep ca sc r) acc).subjectScores.map (fun p => p.2.total) =
      acc.subjectScores.map (fun p => p.2.total) := by
  induction l generalizing acc with
  | nil => rfl
  | cons i t ih => rw [List.foldl_cons, ih, evalStep_totals]

lemma foldl_sumCorrect (ca : List String) (sc : Nat → Option (List String))
    (r : List String) (l : List Nat) (acc : EvaluationResult)
    (hl : ∀ i ∈ l, i < 100)
    (hkeys : acc.subjectScores.map Prod.fst = subjects) :
    ((l.foldl (evalStep ca sc r) acc).subjectScores.map (fun p => p.2.correct)).sum =
      (acc.subjectScores.map (fun p => p.2.correct)).sum +
        l.countP (fun i => questionStatus ca sc r i == "correct") := by
  induction l generalizing acc with
  | nil => simp
  | cons i t ih =>
    rw [List.foldl_cons,
      ih (evalStep ca sc r acc i) (fun j hj => hl j (List.mem_cons_of_mem _ hj))
        (by rw [evalStep_keys, hkeys]),
      evalStep_sumCorrect ca sc r acc i (hl i (List.mem_cons_self _ _)) hkeys,
      List.countP_cons]
    by_cases h : questionStatus ca sc r i = "correct" <;> simp [h] <;> omega

/-! ## Projections of `evaluateResponses` -/

/-- The answer list selected for an exam set. -/
def keyAnswers (examSet : String) : List String :=
  (getAnswerKey examSet).rawAnswers

/-- The special-case table selected for an exam set. -/
def keySpecials (examSet : String) : Nat → Option (List String) :=
  (getAnswerKey examSet).specialCases

/-- The `results` value after the loop, before percentages are filled in. -/
def loopedResults (responses : List String) (examSet : String) : EvaluationResult :=
  (List.range 100).foldl
    (evalStep (keyAnswers examSet) (keySpecials examSet) responses) initResults

/-- `evaluateResponses` decomposed into loop plus percentage pass
(definitional). -/
lemma evaluateResponses_eq (responses : List String) (examSet : String) :
    evaluateResponses responses examSet =
      { loopedResults responses examSet with
        percentage := ((loopedResults responses examSet).totalScore : ℚ) / 100 * 100
        subjectScores := (loopedResults responses examSet).subjectScores.map fun p =>
          (p.1, { p.2 with percentage := (p.2.correct : ℚ) / (p.2.total : ℚ) * 100 }) } := rfl

lemma evaluateResponses_detailedResults (r : List String) (e : String) :
    (evaluateResponses r e).detailedResults =
      (List.range 100).map (questionRecord (keyAnswers e) (keySpecials e) r) := by
  rw [evaluateResponses_eq]
  show (loopedResults r e).detailedResults = _
  rw [loopedResults, foldl_detailedResults]
  rfl

lemma evaluateResponses_totalQuestions (r : List String) (e : String) :
    (evaluateResponses r e).totalQuestions = 100 := by
  rw [evaluateResponses_eq]
  show (loopedResults r e).totalQuestions = 100
  rw [loopedResults, foldl_totalQuestions]
  rfl

lemma evaluateResponses_totalScore (r : List String) (e : String) :
    (evaluateResponses r e).totalScore =
      (List.range 100).countP
        (fun i => questionStatus (keyAnswers e) (keySpecials e) r i == "correct") := by
  rw [evaluateResponses_eq]
  show (loopedResults r e).totalScore = _
  rw [loopedResults, foldl_totalScore]
  simp [initResults]

lemma evaluateResponses_summaryCorrect (r : List String) (e : String) :
    (evaluateResponses r e).summary.correct =
      (List.range 100).countP
        (fun i => questionStatus (keyAnswers e) (keySpecials e) r i == "correct") := by
  rw [evaluateResponses_eq]
  show (loopedResults r e).summary.correct = _
  rw [loopedResults, foldl_summaryCorrect]
  simp [initResults]

lemma evaluateResponses_summaryIncorrect (r : List String) (e : String) :
    (evaluateResponses r e).summary.incorrect =
      (List.range 100).countP
        (fun i => questionStatus (keyAnswers e) (keySpecials e) r i == "incorrect") := by
  rw [evaluateResponses_eq]
  show (loopedResults r e).summary.incorrect = _
  rw [loopedResults, foldl_summaryIncorrect]
  simp [initResults]

lemma evaluateResponses_summaryUnanswered (r : List String) (e : String) :
    (evaluateResponses r e).summary.unanswered =
      (List.range 100).countP
        (fun i => questionStatus (keyAnswers e) (keySpecials e) r i == "unanswered") := by
  rw [evaluateResponses_eq]
  show (loopedResults r e).summary.unanswered = _
  rw [loopedResults, foldl_summaryUnanswered]
  simp [initResults]

lemma evaluateResponses_percentage (r : List String) (e : String) :
    (evaluateResponses r e).percentage =
      ((evaluateResponses r e).totalScore : ℚ) / 100 * 100 := by
  rw [evaluateResponses_eq]

lemma evaluateResponses_keys (r : List String) (e : String) :
    (evaluateResponses r e).subjectScores.map Prod.fst = subjects := by
  rw [evaluateResponses_eq]
  show ((loopedResults r e).subjectScores.map _).map Prod.fst = subjects
  rw [List.map_map]
  show (loopedResults r e).subjectScores.map Prod.fst = subjects
  rw [loopedResults, foldl_keys]
  rfl

lemma evaluateResponses_subjectScores (r : List String) (e : String) :
    (evaluateResponses r e).subjectScores =
      (loopedResults r e).subjectScores.map
        (fun p => (p.1, { p.2 with
          percentage := (p.2.correct : ℚ) / (p.2.total : ℚ) * 100 })) := rfl

lemma evaluateResponses_subjectTotals (r : List String) (e : String) :
    (evaluateResponses r e).subjectScores.map (fun p => p.2.total) =
      [20, 20, 20, 20, 20] := by
  rw [evaluateResponses_subjectScores, List.map_map]
  show (loopedResults r e).subjectScores.map (fun p => p.2.total) = _
  rw [loopedResults, foldl_totals]
  rfl

lemma evaluateResponses_subjectCorrects (r : List String) (e : String) :
    (evaluateResponses r e).subjectScores.map (fun p => p.2.correct) =
      (loopedResults r e).subjectScores.map (fun p => p.2.correct) := by
  rw [evaluateResponses_subjectScores, List.map_map]
  rfl

lemma evaluateResponses_sumCorrect (r : List String) (e : String) :
    ((evaluateResponses r e).subjectScores.map (fun p => p.2.correct)).sum =
      (evaluateResponses r e).totalScore := by
  rw [evaluateResponses_subjectCorrects, evaluateResponses_totalScore, loopedResults,
    foldl_sumCorrect _ _ _ _ _ (fun i hi => List.mem_range.mp hi) (by rfl)]
  have h0 : (List.map (fun p => p.2.correct) initResults.subjectScores).sum = 0 := rfl
  rw [h0, Nat.zero_add]

lemma evaluateResponses_subjectPercentage (r : List String) (e : String) :
    ∀ p ∈ (evaluateResponses r e).subjectScores,
      p.2.percentage = (p.2.correct : ℚ) / (p.2.total : ℚ) * 100 := by
  rw [evaluateResponses_subjectScores]
  intro p hp
  simp only [List.mem_map] at hp
  obtain ⟨q, hq, rfl⟩ := hp
  rfl

/-! ## Per-question access and status counting -/

/-- Placeholder record used with `List.getD` on `detailedResults`. -/
def defaultDetail : QuestionDetail :=
  { questionNumber := 0, subject := "", studentAnswer := "", correctAnswer := "",
    isCorrect := false, status := "" }

lemma detailedResults_getD (r : List String) (e : String) (i : Nat) (hi : i < 100) :
    (evaluateResponses r e).detailedResults.getD i defaultDetail =
      questionRecord (keyAnswers e) (keySpecials e) r i := by
  rw [evaluateResponses_detailedResults, List.getD_eq_getElem?_getD, List.getElem?_map,
    List.getElem?_range hi]
  rfl

lemma detailedResults_length (r : List String) (e : String) :
    (evaluateResponses r e).detailedResults.length = 100 := by
  rw [evaluateResponses_detailedResults, List.length_map, List.length_range]

/-- Every question gets exactly one of the three statuses, so the three
per-status counts partition the question list. -/
lemma countP_statuses (ca : List String) (sc : Nat → Option (List String))
    (r : List String) (l : List Nat) :
    l.countP (fun i => questionStatus ca sc r i == "correct") +
      l.countP (fun i => questionStatus ca sc r i == "incorrect") +
      l.countP (fun i => questionStatus ca sc r i == "unanswered") = l.length := by
  induction l with
  | nil => rfl
  | cons i t ih =>
    simp only [List.countP_cons, List.length_cons]
    rcases questionStatus_trichotomy ca sc r i with h | h | h <;> simp [h] <;> omega

lemma filter_status_length (r : List String) (e : String) (st : String) :
    ((evaluateResponses r e).detailedResults.filter (fun d => d.status == st)).length =
      (List.range 100).countP
        (fun i => questionStatus (keyAnswers e) (keySpecials e) r i == st) := by
  rw [evaluateResponses_detailedResults, ← List.countP_eq_length_filter, List.countP_map]
  rfl

/-! ## The claims -/

/-- Claim C1: for every detected-response array, `totalScore` equals the
number of `detailedResults` records whose status is `"correct"`, and
`totalScore + summary.incorrect + summary.unanswered` equals the total
number of questions (N = 100). -/
theorem claim_C1 (responses : List String) (examSet : String) :
    (evaluateResponses responses examSet).totalScore =
      ((evaluateResponses responses examSet).detailedResults.filter
        (fun d => d.status == "correct")).length ∧
    (evaluateResponses responses examSet).totalScore +
        (evaluateResponses responses examSet).summary.incorrect +
        (evaluateResponses responses examSet).summary.unanswered = 100 := by
  constructor
  · rw [filter_status_length, evaluateResponses_totalScore]
  · rw [evaluateResponses_totalScore, evaluateResponses_summaryIncorrect,
      evaluateResponses_summaryUnanswered]
    have h := countP_statuses (keyAnswers examSet) (keySpecials examSet) responses
      (List.range 100)
    rwa [List.length_range] at h

/-- Claim C6: the per-subject `correct` counters sum to `totalScore`. -/
theorem claim_C6 (responses : List String) (examSet : String) :
    ((evaluateResponses responses examSet).subjectScores.map (fun p => p.2.correct)).sum =
      (evaluateResponses responses examSet).totalScore :=
  evaluateResponses_sumCorrect responses examSet

/-- Claim C8: the evaluation engine is deterministic and pure — identical
detected responses and identical exam configuration give identical
results (it reads no hidden state, randomness or clock). -/
theorem claim_C8 (r1 r2 : List String) (e1 e2 : String) (hr : r1 = r2) (he : e1 = e2) :
    evaluateResponses r1 e1 = evaluateResponses r2 e2 := by
  rw [hr, he]

/-- Witness for C8 at a concrete input. -/
theorem claim_C8_witness :
    evaluateResponses ["a", "c"] "setA" = evaluateResponses ["a", "c"] "setA" :=
  claim_C8 ["a", "c"] ["a", "c"] "setA" "setA" rfl rfl

/-- Claim C10: independently of the input array and exam set, the result
has `totalQuestions = 100`, exactly 100 `detailedResults` records with
`questionNumber` ascending (`i + 1` at position `i`), and exactly the five
subjects, each with `total = 20`. -/
theorem claim_C10 (responses : List String) (examSet : String) :
    (evaluateResponses responses examSet).totalQuestions = 100 ∧
    (evaluateResponses responses examSet).detailedResults.length = 100 ∧
    (∀ i, i < 100 →
      ((evaluateResponses responses examSet).detailedResults.getD i
        defaultDetail).questionNumber = i + 1) ∧
    (evaluateResponses responses examSet).subjectScores.map Prod.fst = subjects ∧
    subjects.length = 5 ∧
    (evaluateResponses responses examSet).subjectScores.map (fun p => p.2.total) =
      [20, 20, 20, 20, 20] := by
  refine ⟨evaluateResponses_totalQuestions responses examSet,
    detailedResults_length responses examSet, ?_,
    evaluateResponses_keys responses examSet, by decide,
    evaluateResponses_subjectTotals responses examSet⟩
  intro i hi
  rw [detailedResults_getD responses examSet i hi]
  rfl

/-- Witness for C10 at a concrete input (response array of length 1,
unknown exam set, detail record at position 7). -/
theorem claim_C10_witness :
    (evaluateResponses ["a"] "setC").totalQuestions = 100 ∧
    (evaluateResponses ["a"] "setC").detailedResults.length = 100 ∧
    ((evaluateResponses ["a"] "setC").detailedResults.getD 7
      defaultDetail).questionNumber = 8 ∧
    (evaluateResponses ["a"] "setC").subjectScores.map Prod.fst = subjects ∧
    subjects.length = 5 ∧
    (evaluateResponses ["a"] "setC").subjectScores.map (fun p => p.2.total) =
      [20, 20, 20, 20, 20] := by
  obtain ⟨h1, h2, h3, h4, h5, h6⟩ := claim_C10 ["a"] "setC"
  exact ⟨h1, h2, h3 7 (by omega), h4, h5, h6⟩

/-! ## Letter answers are never whitespace-only -/

/-- The answer alphabet used by the hard-coded keys and special cases. -/
def answerLetters : List String := ["a", "b", "c", "d"]

lemma toLower_letter_not_whitespace (c : Char)
    (h : Char.toLower c ∈ (['a', 'b', 'c', 'd'] : List Char)) :
    jsWhitespace c = false := by
  by_contra hw
  rw [Bool.not_eq_false] at hw
  unfold jsWhitespace at hw
  simp only [Bool.or_eq_true, decide_eq_true_eq, or_assoc] at hw
  rcases hw with rfl | rfl | rfl | rfl | rfl | rfl | rfl | rfl | rfl | rfl | rfl | rfl | rfl |
    rfl | rfl | rfl | rfl | rfl | rfl | rfl | rfl | rfl | rfl | rfl | rfl <;>
    exact absurd h (by decide)

lemma map_toLower_singleton (s : String) (x : Char)
    (h : s.data.map Char.toLower = [x]) :
    ∃ c, s.data = [c] ∧ Char.toLower c = x := by
  cases hd : s.data with
  | nil => rw [hd] at h; simp at h
  | cons c t =>
    rw [hd] at h
    simp only [List.map_cons, List.cons.injEq, List.map_eq_nil_iff] at h
    exact ⟨c, by rw [h.2], h.1⟩

lemma jsTrim_ne_of_data_letter (s : String) (c : Char) (hd : s.data = [c])
    (hw : jsWhitespace c = false) : jsTrim s ≠ "" := by
  unfold jsTrim
  rw [hd]
  rw [List.dropWhile_cons_of_neg (by simp [hw]), List.reverse_cons, List.reverse_nil,
    List.nil_append, List.dropWhile_cons_of_neg (by simp [hw])]
  simp [String.ext_iff]

/-- A string whose JS-lowercasing is one of the four answer letters cannot
be blank: its trim is non-empty. -/
lemma jsTrim_ne_of_lower_mem (s : String)
    (h : jsToLowerCase s ∈ answerLetters) : jsTrim s ≠ "" := by
  simp only [answerLetters, List.mem_cons, List.mem_singleton,
    List.not_mem_nil, or_false] at h
  rcases h with heq | heq | heq | heq <;>
  · obtain ⟨c, hc, hlow⟩ :=
      map_toLower_singleton s _ (congrArg String.data heq)
    exact jsTrim_ne_of_data_letter s c hc
      (toLower_letter_not_whitespace c (by rw [hlow]; decide))

/-! ## Structure of the hard-coded configuration -/

lemma keySpecials_eq_shared (e : String) : keySpecials e = sharedSpecialCases := by
  unfold keySpecials getAnswerKey
  split_ifs <;> rfl

lemma sharedSpecialCases_inv (q : Nat) (acc : List String)
    (h : sharedSpecialCases q = some acc) :
    (q = 16 ∧ acc = ["a", "b", "c", "d"]) ∨ (q = 59 ∧ acc = ["a", "b"]) := by
  unfold sharedSpecialCases at h
  split_ifs at h with h16 h59
  · injection h with h'
    exact Or.inl ⟨h16, h'.symm⟩
  · injection h with h'
    exact Or.inr ⟨h59, h'.symm⟩

lemma keyAnswers_mem_letters (e : String) (i : Nat) (hi : i < 100) :
    (keyAnswers e).getD i "" ∈ answerLetters := by
  have hsub : ∀ l : List String, (∀ x ∈ l, x ∈ answerLetters) → l.length = 100 →
      l.getD i "" ∈ answerLetters := by
    intro l hl hlen
    have hi' : i < l.length := by omega
    rw [List.getD_eq_getElem?_getD, List.getElem?_eq_getElem hi']
    exact hl _ (List.getElem_mem hi')
  unfold keyAnswers getAnswerKey
  split_ifs
  · exact hsub setARawAnswers (by decide) (by decide)
  · exact hsub setBRawAnswers (by decide) (by decide)
  · exact hsub setARawAnswers (by decide) (by decide)

lemma letters_lower_self (x : String) (hx : x ∈ answerLetters) : jsToLowerCase x = x := by
  fin_cases hx <;> rfl

/-! ## Correctness of a non-empty answer -/

lemma isBlankAnswer_true_iff (s : String) :
    isBlankAnswer s = true ↔ (s = "" ∨ jsTrim s = "") := by
  unfold isBlankAnswer
  simp

lemma questionStatus_beq_correct_of_nonblank (ca : List String)
    (sc : Nat → Option (List String)) (r : List String) (i : Nat)
    (hb : isBlankAnswer (r.getD i "") = false) :
    (questionStatus ca sc r i == "correct") = rawIsCorrect ca sc r i := by
  unfold questionStatus
  rw [hb]
  cases hc : rawIsCorrect ca sc r i <;> simp

/-- For a non-empty detected answer, the loop scores the question correct
exactly when the raw comparison succeeds — provided a raw success forces
the lowercased answer to be one of the four letters (true for the
hard-coded keys and special cases), so that a whitespace-only answer can
never be raw-correct. -/
lemma questionStatus_correct_iff_raw (ca : List String)
    (sc : Nat → Option (List String)) (r : List String) (i : Nat)
    (hne : r.getD i "" ≠ "")
    (hletters : rawIsCorrect ca sc r i = true →
      jsToLowerCase (r.getD i "") ∈ answerLetters) :
    ((questionStatus ca sc r i == "correct") = true ↔ rawIsCorrect ca sc r i = true) := by
  cases hb : isBlankAnswer (r.getD i "") with
  | false => rw [questionStatus_beq_correct_of_nonblank ca sc r i hb]
  | true =>
    rw [questionStatus_of_blank ca sc r i hb]
    constructor
    · intro h
      exact absurd h (by decide)
    · intro h
      rcases (isBlankAnswer_true_iff _).mp hb with h0 | h0
      · exact absurd h0 hne
      · exact absurd h0 (jsTrim_ne_of_lower_mem _ (hletters h))

/-- Claim C2: a question with a SpecialCase is scored purely by
membership of the lowercased non-empty answer in the accepted set — the
canonical key entry for that question is ignored. -/
theorem claim_C2 (examSet : String) (qn : Nat) (accepted : List String)
    (hsc : keySpecials examSet qn = some accepted)
    (responses : List String) (hne : responses.getD (qn - 1) "" ≠ "") :
    ((evaluateResponses responses examSet).detailedResults.getD (qn - 1)
        defaultDetail).isCorrect = true ↔
      jsToLowerCase (responses.getD (qn - 1) "") ∈ accepted := by
  have hinv := sharedSpecialCases_inv qn accepted
    (by rw [← keySpecials_eq_shared examSet]; exact hsc)
  have hqn : qn = 16 ∨ qn = 59 := by
    rcases hinv with ⟨h, _⟩ | ⟨h, _⟩
    · exact Or.inl h
    · exact Or.inr h
  have hi : qn - 1 < 100 := by rcases hqn with h | h <;> omega
  have hplus : qn - 1 + 1 = qn := by rcases hqn with h | h <;> omega
  have hraw : rawIsCorrect (keyAnswers examSet) (keySpecials examSet) responses (qn - 1) =
      accepted.contains (jsToLowerCase (responses.getD (qn - 1) "")) := by
    unfold rawIsCorrect
    rw [hplus, hsc]
  have hl : rawIsCorrect (keyAnswers examSet) (keySpecials examSet) responses (qn - 1) =
      true → jsToLowerCase (responses.getD (qn - 1) "") ∈ answerLetters := by
    intro h
    rw [hraw] at h
    replace h := List.elem_iff.mp h
    rcases hinv with ⟨_, rfl⟩ | ⟨_, rfl⟩
    · exact h
    · simp only [List.mem_cons, List.mem_singleton, List.not_mem_nil, or_false] at h
      rcases h with h | h <;> rw [h] <;> decide
  rw [detailedResults_getD responses examSet (qn - 1) hi]
  show (questionStatus (keyAnswers examSet) (keySpecials examSet) responses (qn - 1) ==
    "correct") = true ↔ _
  rw [questionStatus_correct_iff_raw _ _ _ _ hne hl, hraw]
  exact List.elem_iff

/-- Witness for C2: exam set A, question 16 (special case accepting any
of a–d) with the key saying "a"; submitting "d" still scores correct. -/
theorem claim_C2_witness :
    ((evaluateResponses (List.replicate 100 "d") "setA").detailedResults.getD 15
        defaultDetail).isCorrect = true ∧
      setARawAnswers.getD 15 "" = "a" :=
  ⟨(claim_C2 "setA" 16 ["a", "b", "c", "d"] (by decide) (List.replicate 100 "d")
      (by decide)).mpr (by decide),
   by decide⟩

/-- Claim C7: answer comparison is case-insensitive — a non-empty answer
is scored correct exactly when its lowercased form matches the lowercased
canonical key entry (or, under a SpecialCase, lies in the accepted set). -/
theorem claim_C7 (responses : List String) (examSet : String) (i : Nat) (hi : i < 100)
    (hne : responses.getD i "" ≠ "") :
    (((evaluateResponses responses examSet).detailedResults.getD i
        defaultDetail).isCorrect = true ↔
      match keySpecials examSet (i + 1) with
      | some accepted => jsToLowerCase (responses.getD i "") ∈ accepted
      | none => jsToLowerCase (responses.getD i "") =
          jsToLowerCase ((keyAnswers examSet).getD i "")) := by
  rw [detailedResults_getD responses examSet i hi]
  show (questionStatus (keyAnswers examSet) (keySpecials examSet) responses i ==
    "correct") = true ↔ _
  cases hsc : keySpecials examSet (i + 1) with
  | some accepted =>
    have hraw : rawIsCorrect (keyAnswers examSet) (keySpecials examSet) responses i =
        accepted.contains (jsToLowerCase (responses.getD i "")) := by
      unfold rawIsCorrect
      rw [hsc]
    have hinv := sharedSpecialCases_inv (i + 1) accepted
      (by rw [← keySpecials_eq_shared examSet]; exact hsc)
    have hl : rawIsCorrect (keyAnswers examSet) (keySpecials examSet) responses i =
        true → jsToLowerCase (responses.getD i "") ∈ answerLetters := by
      intro h
      rw [hraw] at h
      replace h := List.elem_iff.mp h
      rcases hinv with ⟨_, rfl⟩ | ⟨_, rfl⟩
      · exact h
      · simp only [List.mem_cons, List.mem_singleton, List.not_mem_nil, or_false] at h
        rcases h with h | h <;> rw [h] <;> decide
    rw [questionStatus_correct_iff_raw _ _ _ _ hne hl, hraw]
    exact List.elem_iff
  | none =>
    have hraw : rawIsCorrect (keyAnswers examSet) (keySpecials examSet) responses i =
        (jsToLowerCase (responses.getD i "") ==
          jsToLowerCase ((keyAnswers examSet).getD i "")) := by
      unfold rawIsCorrect
      rw [hsc]
    have hl : rawIsCorrect (keyAnswers examSet) (keySpecials examSet) responses i =
        true → jsToLowerCase (responses.getD i "") ∈ answerLetters := by
      intro h
      rw [hraw] at h
      rw [beq_iff_eq] at h
      rw [h, letters_lower_self _ (keyAnswers_mem_letters examSet i hi)]
      exact keyAnswers_mem_letters examSet i hi
    rw [questionStatus_correct_iff_raw _ _ _ _ hne hl, hraw]
    exact beq_iff_eq

/-- Witness for C7: question 1 of set A has key "b" and no special case;
the uppercase response "B" scores correct. -/
theorem claim_C7_witness :
    ((evaluateResponses ["B"] "setA").detailedResults.getD 0
      defaultDetail).isCorrect = true :=
  (claim_C7 ["B"] "setA" 0 (by decide) (by decide)).mpr
    (show jsToLowerCase (["B"].getD 0 "") =
      jsToLowerCase ((keyAnswers "setA").getD 0 "") by decide)

/-- Claim C3: an empty or whitespace-only detected response yields status
`"unanswered"`; it is counted by `summary.unanswered` and contributes to
neither `totalScore` nor `summary.correct` nor `summary.incorrect`, which
count only records with the other statuses. -/
theorem claim_C3 (responses : List String) (examSet : String) (i : Nat) (hi : i < 100)
    (hblank : jsTrim (responses.getD i "") = "") :
    ((evaluateResponses responses examSet).detailedResults.getD i
        defaultDetail).status = "unanswered" ∧
    (evaluateResponses responses examSet).summary.unanswered =
      ((evaluateResponses responses examSet).detailedResults.filter
        (fun d => d.status == "unanswered")).length ∧
    (evaluateResponses responses examSet).totalScore =
      ((evaluateResponses responses examSet).detailedResults.filter
        (fun d => d.status == "correct")).length ∧
    (evaluateResponses responses examSet).summary.correct =
      ((evaluateResponses responses examSet).detailedResults.filter
        (fun d => d.status == "correct")).length ∧
    (evaluateResponses responses examSet).summary.incorrect =
      ((evaluateResponses responses examSet).detailedResults.filter
        (fun d => d.status == "incorrect")).length := by
  have hb : isBlankAnswer (responses.getD i "") = true :=
    (isBlankAnswer_true_iff _).mpr (Or.inr hblank)
  refine ⟨?_, ?_, ?_, ?_, ?_⟩
  · rw [detailedResults_getD responses examSet i hi]
    show questionStatus (keyAnswers examSet) (keySpecials examSet) responses i =
      "unanswered"
    exact questionStatus_of_blank _ _ _ _ hb
  · rw [filter_status_length, evaluateResponses_summaryUnanswered]
  · rw [filter_status_length, evaluateResponses_totalScore]
  · rw [filter_status_length, evaluateResponses_summaryCorrect]
  · rw [filter_status_length, evaluateResponses_summaryIncorrect]

/-- Witness for C3: a whitespace-only response at question 1. -/
theorem claim_C3_witness :
    ((evaluateResponses [" "] "setA").detailedResults.getD 0
        defaultDetail).status = "unanswered" ∧
    (evaluateResponses [" "] "setA").summary.unanswered =
      ((evaluateResponses [" "] "setA").detailedResults.filter
        (fun d => d.status == "unanswered")).length ∧
    (evaluateResponses [" "] "setA").totalScore =
      ((evaluateResponses [" "] "setA").detailedResults.filter
        (fun d => d.status == "correct")).length ∧
    (evaluateResponses [" "] "setA").summary.correct =
      ((evaluateResponses [" "] "setA").detailedResults.filter
        (fun d => d.status == "correct")).length ∧
    (evaluateResponses [" "] "setA").summary.incorrect =
      ((evaluateResponses [" "] "setA").detailedResults.filter
        (fun d => d.status == "incorrect")).length :=
  claim_C3 [" "] "setA" 0 (by decide) (by decide)

/-! ## Length tolerance -/

lemma getD_take100 (l : List String) (i : Nat) (h : i < 100) :
    (l.take 100).getD i "" = l.getD i "" := by
  rw [List.getD_eq_getElem?_getD, List.getD_eq_getElem?_getD, List.getElem?_take_of_lt h]

/-- Claim C4: a response array shorter than N = 100 is processed without
failure — the result still scores all 100 questions and every question at
or beyond the array's length gets status `"unanswered"` — and entries past
index 100 of a longer array are ignored: the result equals that of the
array truncated to 100 entries. -/
theorem claim_C4 (responses : List String) (examSet : String) :
    (∀ i, responses.length ≤ i → i < 100 →
      ((evaluateResponses responses examSet).detailedResults.getD i
        defaultDetail).status = "unanswered") ∧
    (evaluateResponses responses examSet).detailedResults.length = 100 ∧
    evaluateResponses responses examSet =
      evaluateResponses (responses.take 100) examSet := by
  refine ⟨?_, detailedResults_length responses examSet, ?_⟩
  · intro i hlen hi
    have hempty : responses.getD i "" = "" := by
      rw [List.getD_eq_getElem?_getD, List.getElem?_eq_none hlen]
      rfl
    rw [detailedResults_getD responses examSet i hi]
    show questionStatus (keyAnswers examSet) (keySpecials examSet) responses i =
      "unanswered"
    exact questionStatus_of_blank _ _ _ _
      ((isBlankAnswer_true_iff _).mpr (Or.inl hempty))
  · have hloop : loopedResults responses examSet =
        loopedResults (responses.take 100) examSet := by
      unfold loopedResults
      apply List.foldl_ext
      intro acc b hb
      have hb' : b < 100 := List.mem_range.mp hb
      have hri : rawIsCorrect (keyAnswers examSet) (keySpecials examSet)
          (responses.take 100) b =
          rawIsCorrect (keyAnswers examSet) (keySpecials examSet) responses b := by
        unfold rawIsCorrect
        rw [getD_take100 responses b hb']
      rw [evalStep_branches, evalStep_branches, getD_take100 responses b hb', hri]
    rw [evaluateResponses_eq, evaluateResponses_eq, hloop]

/-- Witness for C4: 95 detected entries; question 98 (index 97) is scored
unanswered, all 100 questions are still scored, and truncation at 100 is
the identity here. -/
theorem claim_C4_witness :
    ((evaluateResponses (List.replicate 95 "a") "setA").detailedResults.getD 97
      defaultDetail).status = "unanswered" ∧
    (evaluateResponses (List.replicate 95 "a") "setA").detailedResults.length = 100 ∧
    evaluateResponses (List.replicate 95 "a") "setA" =
      evaluateResponses ((List.replicate 95 "a").take 100) "setA" := by
  obtain ⟨h1, h2, h3⟩ := claim_C4 (List.replicate 95 "a") "setA"
  exact ⟨h1 97 (by decide) (by decide), h2, h3⟩

/-! ## Subject lookup outside the segments -/

/-- Counterexample for C5 as stated: the subject lookup never fails.  At
the concrete uncovered question numbers 101 and 0 it returns the sentinel
string `"Unknown"` — a normal return value, not a `ConfigurationError` —
and the evaluation engine itself has no failure path: it returns a fully
scored 100-question result on any input. -/
theorem claim_C5_counterexample :
    getSubjectForQuestion 101 = "Unknown" ∧ getSubjectForQuestion 0 = "Unknown" ∧
    (evaluateResponses [] "setA").detailedResults.length = 100 :=
  ⟨by decide, by decide, detailedResults_length [] "setA"⟩

/-- Claim C5, amended: the hard-coded subject map covers every question
index in [1..100], so an uncovered in-range index cannot arise inside
`evaluateResponses`; for an index outside every segment the lookup
returns the sentinel `"Unknown"` instead of raising a configuration
error, and the evaluate call never fails — it always scores the sheet. -/
theorem claim_C5 :
    (∀ q, 1 ≤ q → q ≤ 100 → getSubjectForQuestion q ∈ subjects) ∧
    (∀ q, q = 0 ∨ 101 ≤ q → getSubjectForQuestion q = "Unknown") ∧
    (∀ (responses : List String) (examSet : String),
      (evaluateResponses responses examSet).detailedResults.length = 100) := by
  refine ⟨?_, ?_, fun r e => detailedResults_length r e⟩
  · intro q h1 h2
    unfold getSubjectForQuestion
    split_ifs with h3 h4 h5 h6 h7
    · decide
    · decide
    · decide
    · decide
    · decide
    · omega
  · intro q hq
    rcases hq with rfl | hq
    · decide
    · unfold getSubjectForQuestion
      split_ifs with h3 h4 h5 h6 h7 <;> first | omega | rfl

/-- Witness for C5 (amended form) at concrete inputs. -/
theorem claim_C5_witness :
    getSubjectForQuestion 5 ∈ subjects ∧ getSubjectForQuestion 101 = "Unknown" ∧
    (evaluateResponses [] "setB").detailedResults.length = 100 :=
  ⟨claim_C5.1 5 (by decide) (by decide), claim_C5.2.1 101 (Or.inr (by decide)),
   claim_C5.2.2 [] "setB"⟩

/-! ## All-correct boundary scenario -/

lemma subjectPercentages_of_counts (L : List (String × SubjectScore))
    (hct : L.map (fun p => (p.2.correct, p.2.total)) =
      [(20, 20), (20, 20), (20, 20), (20, 20), (20, 20)])
    (hp : ∀ p ∈ L, p.2.percentage = (p.2.correct : ℚ) / (p.2.total : ℚ) * 100) :
    L.map (fun p => p.2.percentage) = [100, 100, 100, 100, 100] := by
  rw [List.map_congr_left hp,
    show (fun p : String × SubjectScore => (p.2.correct : ℚ) / (p.2.total : ℚ) * 100) =
      (fun q : Nat × Nat => (q.1 : ℚ) / (q.2 : ℚ) * 100) ∘
        (fun p : String × SubjectScore => (p.2.correct, p.2.total)) from rfl,
    ← List.map_map, hct]
  norm_num

set_option maxRecDepth 4000 in
/-- Counterexample for C9 as stated: for exam set B, a response array
identical to the answer key is not all-correct and does not reach 100%.
Question 59's special case accepts only the letters a and b while the set-B key entry
is "c"; the override applies unconditionally, so the key's own answer is
scored incorrect and the overall percentage is 99, not 100. -/
theorem claim_C9_counterexample :
    (evaluateResponses setBRawAnswers "setB").percentage ≠ 100 ∧
    (evaluateResponses setBRawAnswers "setB").percentage = 99 ∧
    ((evaluateResponses setBRawAnswers "setB").detailedResults.getD 58
      defaultDetail).studentAnswer = "c" ∧
    ((evaluateResponses setBRawAnswers "setB").detailedResults.getD 58
      defaultDetail).correctAnswer = "c" ∧
    ((evaluateResponses setBRawAnswers "setB").detailedResults.getD 58
      defaultDetail).isCorrect = false := by
  have h99 : (evaluateResponses setBRawAnswers "setB").percentage = 99 := by
    have ht : (evaluateResponses setBRawAnswers "setB").totalScore = 99 := by decide
    rw [evaluateResponses_percentage, ht]
    norm_num
  exact ⟨by rw [h99]; norm_num, h99, by decide, by decide, by decide⟩

set_option maxRecDepth 4000 in
/-- Claim C9, amended: an all-correct response array yields an overall
percentage of 100 and per-subject percentages of 100.  Responses
identical to the answer key are such an array for exam set A; for exam
set B they are not (see the counterexample: question 59's special case
excludes the key's own entry "c"), but answering "a" at question 59 and
the key everywhere else is all-correct and yields 100% across the
board. -/
theorem claim_C9 :
    (evaluateResponses setARawAnswers "setA").summary.correct = 100 ∧
    (evaluateResponses setARawAnswers "setA").percentage = 100 ∧
    (evaluateResponses setARawAnswers "setA").subjectScores.map
      (fun p => p.2.percentage) = [100, 100, 100, 100, 100] ∧
    (evaluateResponses (setBRawAnswers.set 58 "a") "setB").summary.correct = 100 ∧
    (evaluateResponses (setBRawAnswers.set 58 "a") "setB").percentage = 100 ∧
    (evaluateResponses (setBRawAnswers.set 58 "a") "setB").subjectScores.map
      (fun p => p.2.percentage) = [100, 100, 100, 100, 100] := by
  have hA : (evaluateResponses setARawAnswers "setA").totalScore = 100 := by decide
  have hB : (evaluateResponses (setBRawAnswers.set 58 "a") "setB").totalScore = 100 := by
    decide
  have hCTA : (evaluateResponses setARawAnswers "setA").subjectScores.map
      (fun p => (p.2.correct, p.2.total)) =
      [(20, 20), (20, 20), (20, 20), (20, 20), (20, 20)] := by decide
  have hCTB : (evaluateResponses (setBRawAnswers.set 58 "a") "setB").subjectScores.map
      (fun p => (p.2.correct, p.2.total)) =
      [(20, 20), (20, 20), (20, 20), (20, 20), (20, 20)] := by decide
  refine ⟨by decide, ?_, ?_, by decide, ?_, ?_⟩
  · rw [evaluateResponses_percentage, hA]
    norm_num
  · exact subjectPercentages_of_counts _ hCTA
      (evaluateResponses_subjectPercentage setARawAnswers "setA")
  · rw [evaluateResponses_percentage, hB]
    norm_num
  · exact subjectPercentages_of_counts _ hCTB
      (evaluateResponses_subjectPercentage (setBRawAnswers.set 58 "a") "setB")
